import Mathlib

/-!
Verification of skytemple-ssb-debugger against its specification.

Shallow embedding of the relevant parts of the repository:
* `skytemple_ssb_debugger/model/ground_state/__init__.py` (`pos_for_display_camera`)
* `skytemple_ssb_debugger/controller/debugger.py` (`DebuggerController`)
* `skytemple_ssb_debugger/dungeon/controller/dungeon_state_controller.py`
  (`DungeonStateController._update_maps` tile classification)

Machine reads from emulator memory and abstract subsystems (breakpoint
manager, game-variable reader, string table) are passed in as explicit
environment functions; effects (printed lines, UI dispatches, registered
temporary breakpoints) are collected in effect records.

Python semantics notes: `>>` on `int` is an arithmetic (floor) shift and
`&` yields the nonnegative residue for a nonnegative mask, which matches
Lean's `Int.shiftRight` and `Int.land`; float division `/255.0` is modelled
exactly over `ℚ`.
-/

/-- `pos_for_display_camera` from `model/ground_state/__init__.py`:
subtracts the camera position and turns the subpixel byte into a
fractional part. Floats are modelled as exact rationals. -/
def pos_for_display_camera (pos camera_pos : Int) : ℚ :=
  let pos_abs : Int := (pos >>> (8 : Int)) - camera_pos
  let pos_sub : ℚ := ((Int.land pos 0xFF : Int) : ℚ) / (0xFF : ℚ)
  (pos_abs : ℚ) + pos_sub

/-- An opcode entry of `rom_data.script_data.op_codes__by_id`: the only
field `_get_next_opcode_addr` reads is `params`. -/
structure Pmd2ScriptOpCode where
  params : Int
deriving DecidableEq, Repr

/-- `DebuggerController._get_next_opcode_addr` from `controller/debugger.py`.
`op_codes__by_id` and the emulator's `memory.unsigned.read_short` are passed
as environment functions (`read_short` returns an unsigned 16-bit value). -/
def _get_next_opcode_addr (op_codes__by_id : Nat → Pmd2ScriptOpCode)
    (read_short : Int → Nat) (current_opcode_addr current_opcode_addr_relative : Int) : Int :=
  let current_opcode := op_codes__by_id (read_short current_opcode_addr)
  -- the length is at least 2 (for the opcode itself)
  let len : Int := 2
  let len : Int :=
    if current_opcode.params = -1 then
      -- if the opcode is var length, the first parameter contains that length
      len + (2 + (read_short (current_opcode_addr + 0x02) : Int))
    else
      len + 2 * current_opcode.params
  current_opcode_addr_relative + len

/-- A concrete opcode table for tests: every opcode id resolves to the
given parameter count. -/
def constOpCodeTable (p : Int) : Nat → Pmd2ScriptOpCode := fun _ => ⟨p⟩

/-- A concrete memory for tests: `read_short` returns `v` at address `a`
and `0` elsewhere. -/
def singleShortMem (a : Int) (v : Nat) : Int → Nat := fun x => if x = a then v else 0

/-- The breakpoint-state outcome enum `BreakpointStateType`
(`model/breakpoint_state.py`), as named and used by
`hook__breaking_point`. -/
inductive BreakpointStateType where
  | STOPPED
  | FAIL_HARD
  | RESUME
  | STEP_NEXT
  | STEP_INTO
  | STEP_OVER
  | STEP_OUT
deriving DecidableEq, Repr

/-- The fields of `ScriptRuntimeStruct` (`model/script_runtime_struct.py`)
that `hook__breaking_point` reads. Enum-valued fields (`target_type`,
`script_target_type`) are carried as their name / numeric id. -/
structure ScriptRuntimeStruct where
  target_type_name : String
  target_id : Nat
  current_opcode_name : String
  current_opcode_addr : Nat
  current_opcode_addr_relative : Nat
  hanger_ssb : Nat
  is_in_unionall : Bool
  script_target_type : Nat
  script_target_slot_id : Nat
  has_call_stack : Bool
  call_stack__current_opcode_addr_relative : Nat
deriving DecidableEq, Repr

/-- One call to `breakpoint_manager.add_temporary`, recorded with its
positional arguments and its optional keyword arguments (`none` when the
keyword was not passed at the call site). -/
structure TempBreakpoint where
  script_target_type : Nat
  script_target_slot_id : Nat
  is_in_unionall : Option Bool
  opcode_addr : Option Nat
deriving DecidableEq, Repr

/-- The mutable state of `DebuggerController` (`controller/debugger.py`):
the attribute flags set in `__init__` plus presence booleans for the
attached objects (`rom_data`, `ground_engine_state`,
`breakpoint_manager`). -/
structure DebuggerController where
  is_active : Bool
  rom_data_present : Bool
  ground_engine_state_present : Bool
  breakpoint_manager_attached : Bool
  _breakpoints_disabled : Bool
  _breakpoints_disabled_for_tick : Int
  _breakpoint_force : Bool
  _log_operations : Bool
  _log_debug_print : Bool
  _log_printfs : Bool
  _debug_mode : Bool
  _log_ground_engine_state : Bool
deriving DecidableEq, Repr

namespace DebuggerController

/-- `DebuggerController.__init__`: `is_active = False`, all logging and
debug flags `False`, `_breakpoints_disabled_for_tick = -1`, no attached
rom data, ground engine state or breakpoint manager. -/
def init : DebuggerController where
  is_active := false
  rom_data_present := false
  ground_engine_state_present := false
  breakpoint_manager_attached := false
  _breakpoints_disabled := false
  _breakpoints_disabled_for_tick := -1
  _breakpoint_force := false
  _log_operations := false
  _log_debug_print := false
  _log_printfs := false
  _debug_mode := false
  _log_ground_engine_state := false

/-- `DebuggerController.enable`: stores `rom_data` and
`breakpoint_manager`, registers the exec hooks (an emulator side effect)
and creates the ground engine state. It never writes `is_active`. -/
def enable (s : DebuggerController) : DebuggerController :=
  { s with rom_data_present := true, breakpoint_manager_attached := true,
           ground_engine_state_present := true }

/-- `DebuggerController.disable`: unregisters the exec hooks, sets
`is_active = False` and drops `rom_data` and `ground_engine_state`
(`breakpoint_manager` is kept). -/
def disable (s : DebuggerController) : DebuggerController :=
  { s with is_active := false, rom_data_present := false,
           ground_engine_state_present := false }

/-- Setter `breakpoints_disabled` (property setter). -/
def set_breakpoints_disabled (s : DebuggerController) (val : Bool) : DebuggerController :=
  { s with _breakpoints_disabled := val }

/-- Setter `log_operations`. -/
def log_operations (s : DebuggerController) (value : Bool) : DebuggerController :=
  { s with _log_operations := value }

/-- Setter `log_debug_print`. -/
def log_debug_print (s : DebuggerController) (value : Bool) : DebuggerController :=
  { s with _log_debug_print := value }

/-- Setter `log_printfs`. -/
def log_printfs (s : DebuggerController) (value : Bool) : DebuggerController :=
  { s with _log_printfs := value }

/-- Setter `log_ground_engine_state`. -/
def log_ground_engine_state (s : DebuggerController) (value : Bool) : DebuggerController :=
  { s with _log_ground_engine_state := value }

/-- Setter `debug_mode`. -/
def debug_mode (s : DebuggerController) (value : Bool) : DebuggerController :=
  { s with _debug_mode := value }

end DebuggerController

/-- Environment of one firing of `hook__breaking_point`: the emulator's
current frame id, the script runtime struct read from r6, whether
`ground_engine_state.loaded_ssb_files[srs.hanger_ssb]` is loaded, the
answer of `breakpoint_manager.has(...)`, and the `BreakpointState`
outcome observed after the wait loop. -/
structure BreakHookEnv where
  current_frame_id : Int
  srs : ScriptRuntimeStruct
  ssb_loaded : Bool
  manager_has : Bool
  resolved_state : BreakpointStateType
deriving DecidableEq, Repr

/-- Observable effects of one firing of `hook__breaking_point`. -/
structure BreakHookEffects where
  lock_released : Bool
  printed_lines : List String
  ui_notified : Bool
  breakpoint_state_created : Bool
  reset_temporary_called : Bool
  temp_breakpoints_added : List TempBreakpoint
  entered_wait_loop : Bool
deriving DecidableEq, Repr

/-- The operation trace line
`f"> {srs.target_type.name}({srs.target_id}): {srs.current_opcode.name} @{srs.current_opcode_addr:0x}"`. -/
def breaking_point_trace_line (srs : ScriptRuntimeStruct) : String :=
  "> " ++ srs.target_type_name ++ "(" ++ toString srs.target_id ++ "): " ++
    srs.current_opcode_name ++ " @" ++ String.mk (Nat.toDigits 16 srs.current_opcode_addr)

/-- `DebuggerController.hook__breaking_point`. The lock is acquired on
entry; `trace` is the operation log emitted while it is held. The
branch structure mirrors the source: no manager or breaking disabled →
release and return; otherwise reset the tick-disable flag, and if the
hanger's ssb is loaded and the breakpoint is forced or registered,
publish a `BreakpointState`, notify the UI, run the wait loop and act on
the resolved outcome. -/
def DebuggerController.hook__breaking_point (s : DebuggerController) (env : BreakHookEnv) :
    DebuggerController × BreakHookEffects :=
  let trace : List String :=
    if s._log_operations then [breaking_point_trace_line env.srs] else []
  if s.breakpoint_manager_attached then
    if s._breakpoints_disabled = false ∧ s._breakpoints_disabled_for_tick ≠ env.current_frame_id then
      let s1 := { s with _breakpoints_disabled_for_tick := -1 }
      if env.ssb_loaded ∧ (s1._breakpoint_force ∨ env.manager_has) then
        let s2 := { s1 with _breakpoint_force := false }
        let srs := env.srs
        match env.resolved_state with
        | BreakpointStateType.FAIL_HARD =>
          ({ s2 with _breakpoints_disabled_for_tick := env.current_frame_id },
           ⟨true, trace, true, true, true, [], true⟩)
        | BreakpointStateType.RESUME =>
          (s2, ⟨true, trace, true, true, true, [], true⟩)
        | BreakpointStateType.STEP_NEXT =>
          ({ s2 with _breakpoint_force := true },
           ⟨true, trace, true, true, true, [], true⟩)
        | BreakpointStateType.STEP_INTO =>
          (s2, ⟨true, trace, true, true, true,
            [⟨srs.script_target_type, srs.script_target_slot_id, none, none⟩], true⟩)
        | BreakpointStateType.STEP_OVER =>
          (s2, ⟨true, trace, true, true, true,
            ⟨srs.script_target_type, srs.script_target_slot_id, some srs.is_in_unionall, none⟩ ::
            (if srs.has_call_stack then
              [⟨srs.script_target_type, srs.script_target_slot_id, none,
                some srs.call_stack__current_opcode_addr_relative⟩]
             else []), true⟩)
        | BreakpointStateType.STEP_OUT =>
          (s2, ⟨true, trace, true, true, true,
            if srs.has_call_stack then
              [⟨srs.script_target_type, srs.script_target_slot_id, none,
                some srs.call_stack__current_opcode_addr_relative⟩]
            else [], true⟩)
        | BreakpointStateType.STOPPED =>
          (s2, ⟨true, trace, true, true, true, [], true⟩)
      else
        (s1, ⟨true, trace, false, false, false, [], false⟩)
    else
      (s, ⟨true, trace, false, false, false, [], false⟩)
  else
    (s, ⟨true, trace, false, false, false, [], false⟩)

/-- Python `str.replace('%p', '%x')`: replace every non-overlapping
occurrence of `%p` left to right, as `hook__log_printfs` preprocesses the
format string. -/
def replace_percent_p : List Char → List Char
  | [] => []
  | '%' :: 'p' :: rest => '%' :: 'x' :: replace_percent_p rest
  | c :: rest => c :: replace_percent_p rest

/-- Python `str.rstrip('\n')`: drop all trailing newline characters. -/
def rstrip_newlines (l : List Char) : List Char :=
  (l.reverse.dropWhile (fun c => c = '\n')).reverse

/-- Environment of one firing of `hook__log_printfs`: the arm9 register
file (indexed access `register_arm9[i]`; `r7`, `r8` are indices 7 and 8)
and `emu.memory.read_string` for `NdsStrPnt` string resolution. -/
structure PrintfHookEnv where
  regs : Nat → Nat
  read_string : Nat → List Char
deriving Inhabited

/-- Observable effects of one firing of `hook__log_printfs`:
the indices into `register_arm9` read (in order) for the substituted
arguments, and whether a line was printed. -/
structure PrintfHookEffects where
  arg_registers_read : List Nat
  printed : Bool
deriving DecidableEq, Repr

/-- `DebuggerController.hook__log_printfs` (argument-register selection).
`register_offset` is the partially-applied first argument (1 for
`DebugPrint`, 0 for `DebugPrint2`). The format string is read from
`register_arm9[register_offset]`, `%p` is rewritten to `%x`, trailing
newlines stripped, and the `%` count selects the branch; branches 1-6 and
8-9 read registers `register_offset + 1 .. register_offset + n`, branch 7
reads six sequential registers and then the fixed register `r8`. A count
of 10 or more matches no branch and prints nothing. -/
def DebuggerController.hook__log_printfs (s : DebuggerController) (register_offset : Nat)
    (env : PrintfHookEnv) : PrintfHookEffects :=
  if s._log_printfs = false then ⟨[], false⟩
  else
    let dbg_string := rstrip_newlines (replace_percent_p (env.read_string (env.regs register_offset)))
    let args_count := dbg_string.count '%'
    match args_count with
    | 0 => ⟨[], true⟩
    | 1 => ⟨[register_offset + 1], true⟩
    | 2 => ⟨[register_offset + 1, register_offset + 2], true⟩
    | 3 => ⟨[register_offset + 1, register_offset + 2, register_offset + 3], true⟩
    | 4 => ⟨[register_offset + 1, register_offset + 2, register_offset + 3,
             register_offset + 4], true⟩
    | 5 => ⟨[register_offset + 1, register_offset + 2, register_offset + 3,
             register_offset + 4, register_offset + 5], true⟩
    | 6 => ⟨[register_offset + 1, register_offset + 2, register_offset + 3,
             register_offset + 4, register_offset + 5, register_offset + 6], true⟩
    | 7 => ⟨[register_offset + 1, register_offset + 2, register_offset + 3,
             register_offset + 4, register_offset + 5, register_offset + 6, 8], true⟩
    | 8 => ⟨[register_offset + 1, register_offset + 2, register_offset + 3,
             register_offset + 4, register_offset + 5, register_offset + 6,
             register_offset + 7, register_offset + 8], true⟩
    | 9 => ⟨[register_offset + 1, register_offset + 2, register_offset + 3,
             register_offset + 4, register_offset + 5, register_offset + 6,
             register_offset + 7, register_offset + 8, register_offset + 9], true⟩
    | _ => ⟨[], false⟩

/-- Environment of one firing of `hook__log_debug_print`: registers r4-r6,
the ssb string table pointer read through the script runtime struct, and
the abstract readers it calls. `game_variable_read` abstracts
`GameVariable.read` as a function of the variable id and sub-index
(the other arguments are ambient state of the firing), returning
`(variable name, value)`. `read_ssb_str` abstracts `read_ssb_str_mem`
applied to the table pointer and index. -/
structure DebugPrintHookEnv where
  r4 : Nat
  r5 : Nat
  r6 : Nat
  start_addr_str_table : Nat
  read_short : Nat → Nat
  game_variable_read : Nat → Nat → String × Int
  read_ssb_str : Nat → Nat → String

/-- Observable effects of one firing of `hook__log_debug_print`:
the `GameVariable.read` calls as `(variable id, sub-index)` pairs, in
order, and the printed lines. -/
structure DebugPrintHookEffects where
  var_reads : List (Nat × Nat)
  printed_lines : List String
deriving DecidableEq, Repr

/-- `DebuggerController.hook__log_debug_print`: dispatch on the opcode in
r6; `0x6B` (debug_Print) prints the string-table string at the short at
`pnt+2`; `0x6C` (debug_PrintFlag) reads the variable at sub-index 0 and
prints it with the string at the short at `pnt+4`; `0x6D`
(debug_PrintScenario) reads the variable at sub-indices 0 and 1 but
formats both the `scenario:` and the `level:` fields from the sub-index-0
value, as the source does. -/
def DebuggerController.hook__log_debug_print (s : DebuggerController)
    (env : DebugPrintHookEnv) : DebugPrintHookEffects :=
  if s._log_debug_print = false then ⟨[], []⟩
  else
    let ssb_str_table_pointer := env.start_addr_str_table
    let current_op_pnt := env.r5
    let current_op := env.r6
    if current_op = 0x6B then
      -- debug_Print
      let const_string := env.read_ssb_str ssb_str_table_pointer
        (env.read_short (current_op_pnt + 2))
      ⟨[], ["debug_Print: " ++ const_string]⟩
    else if current_op = 0x6C then
      -- debug_PrintFlag
      let gv := env.game_variable_read (env.read_short (current_op_pnt + 2)) 0
      let const_string := env.read_ssb_str ssb_str_table_pointer
        (env.read_short (current_op_pnt + 4))
      ⟨[(env.read_short (current_op_pnt + 2), 0)],
       ["debug_PrintFlag: " ++ const_string ++ " - " ++ gv.1 ++ " = " ++ toString gv.2]⟩
    else if current_op = 0x6D then
      -- debug_PrintScenario
      let var_id := env.read_short (current_op_pnt + 2)
      let gv := env.game_variable_read var_id 0
      let _level_value := env.game_variable_read var_id 1
      let const_string := env.read_ssb_str ssb_str_table_pointer
        (env.read_short (current_op_pnt + 4))
      ⟨[(var_id, 0), (var_id, 1)],
       ["debug_PrintScenario: " ++ const_string ++ " - " ++ gv.1 ++ " = scenario:" ++
        toString gv.2 ++ ", level:" ++ toString gv.2]⟩
    else ⟨[], []⟩

/-- Modelled from the spec: the enum `PixbufProviderTerrainType`
(`dungeon/pixbuf/__init__.py`, not under `src/`). `base v` is the member
constructed from a tile's base terrain-type value
(`PixbufProviderTerrainType(map_field.terrain_type.value)`); the four
named members are the override constants used in `_update_maps`. -/
inductive PixbufProviderTerrainType where
  | base (value : Nat)
  | IMPASSABLE_WALL
  | JUNCTION
  | MONSTER_HOUSE
  | KECLEON_SHOP
deriving DecidableEq, Repr

/-- Modelled from the spec: the enum `PixbufProviderMonsterType`
(`dungeon/pixbuf/__init__.py`, not under `src/`), with the members used
in `_update_maps`. -/
inductive PixbufProviderMonsterType where
  | NONE
  | ENEMY
  | ALLY_ENEMY
  | TEAM_LEADER
  | ALLY
deriving DecidableEq, Repr

/-- The fields of a dungeon map field (`dungeon/model/field.py`, not
under `src/`) that the tile-classification code in
`DungeonStateController._update_maps` reads. -/
structure DungeonMapField where
  terrain_type : Nat
  is_impassable_wall : Bool
  is_natural_junction : Bool
  is_in_monster_house : Bool
  is_in_kecleon_shop : Bool
deriving DecidableEq, Repr

/-- The fields of `EntityExtMonster` (`dungeon/model/entity_ext/monster.py`,
not under `src/`) that `_update_maps` reads. `ally_flag` is compared with
`== 1`, so it is kept numeric. -/
structure EntityExtMonster where
  enemy_flag : Bool
  ally_flag : Nat
  teamleader_flag : Bool
deriving DecidableEq, Repr

/-- The terrain-classification block of
`DungeonStateController._update_maps` (lines 143-151): start from the
base terrain type, then override by the first matching flag in the
written if/elif order. -/
def dungeon_tile_terrain_type (map_field : DungeonMapField) : PixbufProviderTerrainType :=
  let terrain_type := PixbufProviderTerrainType.base map_field.terrain_type
  if map_field.is_impassable_wall then PixbufProviderTerrainType.IMPASSABLE_WALL
  else if map_field.is_natural_junction then PixbufProviderTerrainType.JUNCTION
  else if map_field.is_in_monster_house then PixbufProviderTerrainType.MONSTER_HOUSE
  else if map_field.is_in_kecleon_shop then PixbufProviderTerrainType.KECLEON_SHOP
  else terrain_type

/-- The monster-classification block of
`DungeonStateController._update_maps` (lines 171-182): `none` when no
monster is on the tile, otherwise the first matching flag in the written
if/elif order. -/
def dungeon_tile_monster_type (monster_on_tile : Option EntityExtMonster) :
    PixbufProviderMonsterType :=
  match monster_on_tile with
  | none => PixbufProviderMonsterType.NONE
  | some monster_data =>
    if monster_data.enemy_flag then PixbufProviderMonsterType.ENEMY
    else if monster_data.ally_flag = 1 then PixbufProviderMonsterType.ALLY_ENEMY
    else if monster_data.teamleader_flag then PixbufProviderMonsterType.TEAM_LEADER
    else PixbufProviderMonsterType.ALLY

/-- The spec's wording of the terrain rule, stated independently of the
code: the classification is the FIRST MATCH in the fixed priority list
impassable-wall, natural-junction, monster-house, Kecleon-shop, with the
base terrain type as fallback. -/
def terrain_priority_first_match (map_field : DungeonMapField) : PixbufProviderTerrainType :=
  match [(map_field.is_impassable_wall, PixbufProviderTerrainType.IMPASSABLE_WALL),
         (map_field.is_natural_junction, PixbufProviderTerrainType.JUNCTION),
         (map_field.is_in_monster_house, PixbufProviderTerrainType.MONSTER_HOUSE),
         (map_field.is_in_kecleon_shop, PixbufProviderTerrainType.KECLEON_SHOP)].find?
        (fun p => p.1) with
  | some p => p.2
  | none => PixbufProviderTerrainType.base map_field.terrain_type

/-- The spec's wording of the monster rule, stated independently of the
code: the classification of a present monster is the FIRST MATCH in the
fixed priority list enemy-flag, ally-flag-equal-1, team-leader-flag, with
"ally" as fallback. -/
def monster_priority_first_match (monster_data : EntityExtMonster) : PixbufProviderMonsterType :=
  match [(monster_data.enemy_flag, PixbufProviderMonsterType.ENEMY),
         (decide (monster_data.ally_flag = 1), PixbufProviderMonsterType.ALLY_ENEMY),
         (monster_data.teamleader_flag, PixbufProviderMonsterType.TEAM_LEADER)].find?
        (fun p => p.1) with
  | some p => p.2
  | none => PixbufProviderMonsterType.ALLY

/-- Reachability of a `DebuggerController` state: the initial state, closed
under the controller's public operations and its emulator-thread hooks
(`hook__log_printfs`, `hook__log_debug_print` and `hook__debug_mode` do
not write any controller attribute, so they induce no transition). -/
inductive DebuggerController.Reachable : DebuggerController → Prop where
  | init : DebuggerController.Reachable DebuggerController.init
  | enable {s : DebuggerController} :
      DebuggerController.Reachable s → DebuggerController.Reachable s.enable
  | disable {s : DebuggerController} :
      DebuggerController.Reachable s → DebuggerController.Reachable s.disable
  | set_breakpoints_disabled {s : DebuggerController} (val : Bool) :
      DebuggerController.Reachable s →
      DebuggerController.Reachable (s.set_breakpoints_disabled val)
  | log_operations {s : DebuggerController} (value : Bool) :
      DebuggerController.Reachable s → DebuggerController.Reachable (s.log_operations value)
  | log_debug_print {s : DebuggerController} (value : Bool) :
      DebuggerController.Reachable s → DebuggerController.Reachable (s.log_debug_print value)
  | log_printfs {s : DebuggerController} (value : Bool) :
      DebuggerController.Reachable s → DebuggerController.Reachable (s.log_printfs value)
  | log_ground_engine_state {s : DebuggerController} (value : Bool) :
      DebuggerController.Reachable s →
      DebuggerController.Reachable (s.log_ground_engine_state value)
  | debug_mode {s : DebuggerController} (value : Bool) :
      DebuggerController.Reachable s → DebuggerController.Reachable (s.debug_mode value)
  | hook_breaking_point {s : DebuggerController} (env : BreakHookEnv) :
      DebuggerController.Reachable s →
      DebuggerController.Reachable (s.hook__breaking_point env).1

/-- `env` with the game-variable reader answering `f` at sub-index 1 and
unchanged elsewhere; used to state that an output is independent of the
sub-index-1 reading. -/
def DebugPrintHookEnv.override_sub_index_1 (env : DebugPrintHookEnv)
    (f : Nat → Nat → String × Int) : DebugPrintHookEnv :=
  { env with game_variable_read := fun var_id sub_index =>
      if sub_index = 1 then f var_id sub_index
      else env.game_variable_read var_id sub_index }

/-- A concrete script runtime struct for witnesses, with a present call
stack. -/
def srsWithCallStack : ScriptRuntimeStruct where
  target_type_name := "GENERIC"
  target_id := 1
  current_opcode_name := "Call"
  current_opcode_addr := 0x2af8
  current_opcode_addr_relative := 0x58
  hanger_ssb := 1
  is_in_unionall := true
  script_target_type := 3
  script_target_slot_id := 2
  has_call_stack := true
  call_stack__current_opcode_addr_relative := 0x40

/-- A concrete breaking-point hook environment for witnesses, resolved
with outcome STEP_OVER. -/
def breakEnvStepOver : BreakHookEnv where
  current_frame_id := 7
  srs := srsWithCallStack
  ssb_loaded := true
  manager_has := true
  resolved_state := BreakpointStateType.STEP_OVER

/-- A concrete printf hook environment for witnesses: every register
holds its own index and every string pointer resolves to a format string
with seven percent specifiers. -/
def printfEnvSeven : PrintfHookEnv where
  regs := fun i => i
  read_string := fun _ => "a%d b%d c%d d%d e%d f%d g%d".toList

/-- A concrete printf hook environment refuting the arity-8 part of the
claim: the format string carries eight percent specifiers. -/
def printfEnvEight : PrintfHookEnv where
  regs := fun i => i
  read_string := fun _ => "%d%d%d%d%d%d%d%d".toList

/-- A concrete debug-print hook environment for witnesses, with the
opcode register holding `0x6D`, a memory whose shorts are `addr % 7`,
a game-variable reader returning distinct values at the two sub-indices
and a trivial string table. -/
def debugPrintEnv6D : DebugPrintHookEnv where
  r4 := 0x1000
  r5 := 0x2000
  r6 := 0x6D
  start_addr_str_table := 0x3000
  read_short := fun addr => addr % 7
  game_variable_read := fun var_id sub_index => ("SCENARIO_MAIN", var_id + 10 * sub_index)
  read_ssb_str := fun _ idx => "scn" ++ toString idx

/-- Helper: `hook__breaking_point` never writes `is_active` (it only
touches `_breakpoints_disabled_for_tick` and `_breakpoint_force`). -/
theorem hook__breaking_point_keeps_is_active (s : DebuggerController) (env : BreakHookEnv) :
    ((s.hook__breaking_point env).1).is_active = s.is_active := by
  unfold DebuggerController.hook__breaking_point
  dsimp only
  repeat' split
  all_goals rfl

/-- C9: for every pair of integers `pos` and `cameraPos`,
`posForDisplayCamera(pos, cameraPos)` equals
`((pos >> 8) - cameraPos) + (pos & 0xFF) / 255.0`; in particular
`pos = 0x0305`, `cameraPos = 1` give `2 + 5/255`. -/
theorem pos_for_display_camera_equation :
    (∀ pos camera_pos : Int, pos_for_display_camera pos camera_pos =
      (((pos >>> (8 : Int)) - camera_pos : Int) : ℚ) +
        ((Int.land pos 0xFF : Int) : ℚ) / 255) ∧
    pos_for_display_camera 0x0305 1 = 2 + 5 / 255 := by
  constructor
  · intro pos camera_pos
    rfl
  · have h1 : (773 : Int) >>> (8 : Int) = 3 := by decide
    have h2 : Int.land 773 255 = 5 := by decide
    simp only [pos_for_display_camera, h1, h2]
    norm_num

/-- C4: `getNextOpcodeAddress` satisfies the two worked examples of the
spec: a fixed-arity opcode with declared parameter count 2 at relative
address 100 yields 106, and a variable-arity opcode (parameter count -1)
at relative address 200 whose runtime length field reads 6 yields
210 = 200 + 2 + 2 + 6 (the runtime length added once, not doubled). -/
theorem get_next_opcode_addr_worked_examples :
    _get_next_opcode_addr (constOpCodeTable 2) (singleShortMem 0 0) 1000 100 = 106 ∧
    _get_next_opcode_addr (constOpCodeTable (-1)) (singleShortMem 1002 6) 1000 200 = 210 := by
  constructor <;> decide

/-- C3 counterexample: at a variable-arity opcode (parameter count -1)
at relative address 200 whose runtime length field reads 6, the code
returns 210, not the `currentRelativeAddr + 2 + 2 + 2*runtimeLength = 216`
the claim states: the runtime length is added once, not doubled. -/
theorem get_next_opcode_addr_double_length_refuted :
    _get_next_opcode_addr (constOpCodeTable (-1)) (singleShortMem 1002 6) 1000 200 = 210 ∧
    ¬ _get_next_opcode_addr (constOpCodeTable (-1)) (singleShortMem 1002 6) 1000 200 =
        200 + 2 + 2 + 2 * 6 := by
  constructor <;> decide

/-- C3 (amended): for every call to `getNextOpcodeAddress`, when the
opcode at `currentAddr` has declared parameter count `p ≠ -1` the result
is `currentRelativeAddr + 2 + 2*p`, and when the parameter count is `-1`
the result is `currentRelativeAddr + 2 + 2 + runtimeLength`, where
`runtimeLength` is the unsigned 16-bit value read at `currentAddr + 2`
(added once, not doubled). -/
theorem get_next_opcode_addr_length_spec (op_codes__by_id : Nat → Pmd2ScriptOpCode)
    (read_short : Int → Nat) (current_opcode_addr current_opcode_addr_relative : Int) :
    ((op_codes__by_id (read_short current_opcode_addr)).params ≠ -1 →
      _get_next_opcode_addr op_codes__by_id read_short current_opcode_addr
          current_opcode_addr_relative =
        current_opcode_addr_relative + 2 +
          2 * (op_codes__by_id (read_short current_opcode_addr)).params) ∧
    ((op_codes__by_id (read_short current_opcode_addr)).params = -1 →
      _get_next_opcode_addr op_codes__by_id read_short current_opcode_addr
          current_opcode_addr_relative =
        current_opcode_addr_relative + 2 + 2 +
          (read_short (current_opcode_addr + 0x02) : Int)) := by
  constructor
  · intro h
    simp only [_get_next_opcode_addr, if_neg h]
    ring
  · intro h
    simp only [_get_next_opcode_addr, if_pos h]
    ring

/-- C3 witness: the amended length rule evaluated at the two concrete
tables used in the worked examples. -/
theorem get_next_opcode_addr_length_spec_witness :
    _get_next_opcode_addr (constOpCodeTable 2) (singleShortMem 0 0) 1000 100 =
      100 + 2 + 2 * 2 ∧
    _get_next_opcode_addr (constOpCodeTable (-1)) (singleShortMem 1002 6) 1000 200 =
      200 + 2 + 2 + 6 :=
  ⟨by
    have h := (get_next_opcode_addr_length_spec (constOpCodeTable 2)
      (singleShortMem 0 0) 1000 100).1 (by decide)
    simpa using h,
   by
    have h := (get_next_opcode_addr_length_spec (constOpCodeTable (-1))
      (singleShortMem 1002 6) 1000 200).2 (by decide)
    simpa using h⟩

/-- C7: every rendered dungeon tile's terrain classification is the first
match in the fixed priority order impassable-wall, natural-junction,
monster-house, Kecleon-shop, falling back to the tile's base terrain
type; in particular a tile flagged both natural-junction and
monster-house classifies as junction. -/
theorem dungeon_terrain_classification_priority :
    (∀ map_field : DungeonMapField,
      dungeon_tile_terrain_type map_field = terrain_priority_first_match map_field) ∧
    (∀ value : Nat,
      dungeon_tile_terrain_type ⟨value, false, true, true, false⟩ =
        PixbufProviderTerrainType.JUNCTION) := by
  constructor
  · rintro ⟨t, iw, nj, mh, ks⟩
    cases iw <;> cases nj <;> cases mh <;> cases ks <;> rfl
  · intro value
    rfl

/-- C8: every dungeon tile's monster classification is the first match in
the fixed priority order: enemy flag → ENEMY (even when the team-leader
flag is also set); otherwise ally flag exactly 1 → ALLY_ENEMY; otherwise
team-leader flag → TEAM_LEADER; otherwise ALLY; and a tile with no
monster classifies as NONE. -/
theorem dungeon_monster_classification_priority :
    (∀ monster_data : EntityExtMonster,
      dungeon_tile_monster_type (some monster_data) =
        monster_priority_first_match monster_data) ∧
    dungeon_tile_monster_type none = PixbufProviderMonsterType.NONE ∧
    (∀ ally_flag : Nat, ∀ tl : Bool,
      dungeon_tile_monster_type (some ⟨true, ally_flag, tl⟩) =
        PixbufProviderMonsterType.ENEMY) ∧
    dungeon_tile_monster_type (some ⟨false, 1, false⟩) =
      PixbufProviderMonsterType.ALLY_ENEMY ∧
    dungeon_tile_monster_type (some ⟨false, 2, false⟩) =
      PixbufProviderMonsterType.ALLY ∧
    dungeon_tile_monster_type (some ⟨false, 0, true⟩) =
      PixbufProviderMonsterType.TEAM_LEADER := by
  refine ⟨?_, rfl, ?_, by decide, by decide, by decide⟩
  · rintro ⟨ef, af, tf⟩
    cases ef <;> cases tf <;>
      by_cases ha : af = 1 <;>
      simp [dungeon_tile_monster_type, monster_priority_first_match, ha]
  · intro ally_flag tl
    rfl

/-- C1: a firing of the breaking-point hook with no breakpoint manager
attached releases the controller-state lock and returns without entering
the wait loop (so the emulator thread is not blocked), without dispatching
a UI notification, without creating a BreakpointState and without
resetting or registering any breakpoint; it still prints the operation
trace line exactly when operation logging is enabled, and it leaves the
controller state unchanged. -/
theorem hook__breaking_point_no_manager_skips (s : DebuggerController) (env : BreakHookEnv)
    (h : s.breakpoint_manager_attached = false) :
    (s.hook__breaking_point env).2.lock_released = true ∧
    (s.hook__breaking_point env).2.entered_wait_loop = false ∧
    (s.hook__breaking_point env).2.ui_notified = false ∧
    (s.hook__breaking_point env).2.breakpoint_state_created = false ∧
    (s.hook__breaking_point env).2.reset_temporary_called = false ∧
    (s.hook__breaking_point env).2.temp_breakpoints_added = [] ∧
    (s.hook__breaking_point env).2.printed_lines =
      (if s._log_operations then [breaking_point_trace_line env.srs] else []) ∧
    (s.hook__breaking_point env).1 = s := by
  simp [DebuggerController.hook__breaking_point, h]

/-- C1 witness: the no-manager property at the initial state with
operation logging switched on. -/
theorem hook__breaking_point_no_manager_skips_witness :
    (DebuggerController.init.log_operations true).breakpoint_manager_attached = false ∧
    (((DebuggerController.init.log_operations true).hook__breaking_point
        breakEnvStepOver).2.lock_released = true ∧
     ((DebuggerController.init.log_operations true).hook__breaking_point
        breakEnvStepOver).2.entered_wait_loop = false ∧
     ((DebuggerController.init.log_operations true).hook__breaking_point
        breakEnvStepOver).2.ui_notified = false ∧
     ((DebuggerController.init.log_operations true).hook__breaking_point
        breakEnvStepOver).2.breakpoint_state_created = false ∧
     ((DebuggerController.init.log_operations true).hook__breaking_point
        breakEnvStepOver).2.reset_temporary_called = false ∧
     ((DebuggerController.init.log_operations true).hook__breaking_point
        breakEnvStepOver).2.temp_breakpoints_added = [] ∧
     ((DebuggerController.init.log_operations true).hook__breaking_point
        breakEnvStepOver).2.printed_lines =
       (if (DebuggerController.init.log_operations true)._log_operations then
         [breaking_point_trace_line breakEnvStepOver.srs] else []) ∧
     ((DebuggerController.init.log_operations true).hook__breaking_point
        breakEnvStepOver).1 = DebuggerController.init.log_operations true) :=
  ⟨rfl, hook__breaking_point_no_manager_skips (DebuggerController.init.log_operations true)
    breakEnvStepOver rfl⟩

/-- C2: a breakpoint hit resolved with outcome STEP_OVER registers, for
the current script target type and slot id, exactly two temporary
breakpoints when a call stack is present — first one carrying only the
current unionall flag (no opcode-address constraint), then one carrying
only the call stack's relative opcode address — and exactly the
unionall-scoped one when no call stack is present. -/
theorem hook__breaking_point_step_over_temporaries (s : DebuggerController)
    (env : BreakHookEnv)
    (hmgr : s.breakpoint_manager_attached = true)
    (hdis : s._breakpoints_disabled = false)
    (htick : s._breakpoints_disabled_for_tick ≠ env.current_frame_id)
    (hssb : env.ssb_loaded = true)
    (hhit : s._breakpoint_force = true ∨ env.manager_has = true)
    (hres : env.resolved_state = BreakpointStateType.STEP_OVER) :
    (s.hook__breaking_point env).2.temp_breakpoints_added =
      (if env.srs.has_call_stack then
        [⟨env.srs.script_target_type, env.srs.script_target_slot_id,
          some env.srs.is_in_unionall, none⟩,
         ⟨env.srs.script_target_type, env.srs.script_target_slot_id, none,
          some env.srs.call_stack__current_opcode_addr_relative⟩]
      else
        [⟨env.srs.script_target_type, env.srs.script_target_slot_id,
          some env.srs.is_in_unionall, none⟩]) := by
  rcases hhit with hforce | hhas
  · cases hcs : env.srs.has_call_stack <;>
      simp [DebuggerController.hook__breaking_point, hmgr, hdis, htick, hssb, hres, hforce, hcs]
  · cases hcs : env.srs.has_call_stack <;>
      simp [DebuggerController.hook__breaking_point, hmgr, hdis, htick, hssb, hres, hhas, hcs]

/-- C2 witness: the STEP_OVER rule evaluated at an enabled controller and
the concrete environment with a present call stack, yielding the two
temporary breakpoints. -/
theorem hook__breaking_point_step_over_temporaries_witness :
    (DebuggerController.init.enable.hook__breaking_point breakEnvStepOver).2.temp_breakpoints_added =
      (if breakEnvStepOver.srs.has_call_stack then
        [⟨breakEnvStepOver.srs.script_target_type, breakEnvStepOver.srs.script_target_slot_id,
          some breakEnvStepOver.srs.is_in_unionall, none⟩,
         ⟨breakEnvStepOver.srs.script_target_type, breakEnvStepOver.srs.script_target_slot_id,
          none, some breakEnvStepOver.srs.call_stack__current_opcode_addr_relative⟩]
      else
        [⟨breakEnvStepOver.srs.script_target_type, breakEnvStepOver.srs.script_target_slot_id,
          some breakEnvStepOver.srs.is_in_unionall, none⟩]) :=
  hook__breaking_point_step_over_temporaries DebuggerController.init.enable breakEnvStepOver
    rfl rfl (by decide) rfl (Or.inr rfl) rfl

/-- C10: `is_active` is false in every reachable controller state: it is
initialized to false, `disable` sets it to false, and no operation
(including a successful `enable`) ever sets it to true. -/
theorem debugger_is_active_never_true (s : DebuggerController)
    (h : DebuggerController.Reachable s) : s.is_active = false := by
  induction h with
  | init => rfl
  | enable _ ih => exact ih
  | disable _ _ => rfl
  | set_breakpoints_disabled _ _ ih => exact ih
  | log_operations _ _ ih => exact ih
  | log_debug_print _ _ ih => exact ih
  | log_printfs _ _ ih => exact ih
  | log_ground_engine_state _ _ ih => exact ih
  | debug_mode _ _ ih => exact ih
  | hook_breaking_point env _ ih =>
    rw [hook__breaking_point_keeps_is_active]
    exact ih

/-- C10 witness: `is_active` is false after init, enable, a breakpoint
hit and disable. -/
theorem debugger_is_active_never_true_witness :
    ((DebuggerController.init.enable.hook__breaking_point
      breakEnvStepOver).1.disable).is_active = false :=
  debugger_is_active_never_true _
    (DebuggerController.Reachable.disable
      (DebuggerController.Reachable.hook_breaking_point breakEnvStepOver
        (DebuggerController.Reachable.enable DebuggerController.Reachable.init)))

/-- C5 counterexample: with printf logging enabled, register offset 1 and
a preprocessed format string containing exactly eight percent specifiers,
the last two substituted arguments are read from register indices
`registerOffset + 7 = 8` and `registerOffset + 8 = 9` — the regular
sequence — and not from the fixed registers r7 and r8 the claim states. -/
theorem hook__log_printfs_arity8_fixed_registers_refuted :
    ((DebuggerController.init.log_printfs true).hook__log_printfs 1
        printfEnvEight).arg_registers_read = [2, 3, 4, 5, 6, 7, 8, 9] ∧
    ¬ List.drop 6 ((DebuggerController.init.log_printfs true).hook__log_printfs 1
        printfEnvEight).arg_registers_read = [7, 8] := by
  constructor <;> decide

/-- C5 (amended): with printf logging enabled, a preprocessed format
string with exactly 7 percent specifiers reads its first six substituted
arguments from registers `registerOffset + 1 .. registerOffset + 6` and
the last one from the fixed register r8 (rather than register index
`registerOffset + 7`); a string with exactly 8 percent specifiers
continues the regular sequence, reading its arguments from
`registerOffset + 1 .. registerOffset + 8`. -/
theorem hook__log_printfs_register_selection (s : DebuggerController)
    (register_offset : Nat) (env : PrintfHookEnv) (hlog : s._log_printfs = true) :
    ((rstrip_newlines (replace_percent_p
        (env.read_string (env.regs register_offset)))).count '%' = 7 →
      (s.hook__log_printfs register_offset env).arg_registers_read =
        [register_offset + 1, register_offset + 2, register_offset + 3,
         register_offset + 4, register_offset + 5, register_offset + 6, 8]) ∧
    ((rstrip_newlines (replace_percent_p
        (env.read_string (env.regs register_offset)))).count '%' = 8 →
      (s.hook__log_printfs register_offset env).arg_registers_read =
        [register_offset + 1, register_offset + 2, register_offset + 3,
         register_offset + 4, register_offset + 5, register_offset + 6,
         register_offset + 7, register_offset + 8]) := by
  constructor <;> intro hcount <;>
    simp [DebuggerController.hook__log_printfs, hlog, hcount]

/-- C5 witness: the register-selection rule evaluated at register offset
1 on a seven-specifier format string and on an eight-specifier format
string. -/
theorem hook__log_printfs_register_selection_witness :
    ((DebuggerController.init.log_printfs true).hook__log_printfs 1
        printfEnvSeven).arg_registers_read = [2, 3, 4, 5, 6, 7, 8] ∧
    ((DebuggerController.init.log_printfs true).hook__log_printfs 1
        printfEnvEight).arg_registers_read = [2, 3, 4, 5, 6, 7, 8, 9] :=
  ⟨(hook__log_printfs_register_selection (DebuggerController.init.log_printfs true)
      1 printfEnvSeven rfl).1 (by decide),
   (hook__log_printfs_register_selection (DebuggerController.init.log_printfs true)
      1 printfEnvEight rfl).2 (by decide)⟩

/-- C6: a firing of the debug-print hook with logging enabled and r6
holding opcode 0x6D resolves the variable given by the short at
`pnt + 2` at sub-index 0 and at sub-index 1, reads the string-table
string at the short at `pnt + 4`, and prints a line whose `scenario:` and
`level:` fields are BOTH formatted from the sub-index-0 value; the
printed output does not depend on the sub-index-1 reading at all. -/
theorem hook__log_debug_print_scenario_duplicates_value (s : DebuggerController)
    (env : DebugPrintHookEnv) (hlog : s._log_debug_print = true)
    (hop : env.r6 = 0x6D) :
    (s.hook__log_debug_print env).var_reads =
      [(env.read_short (env.r5 + 2), 0), (env.read_short (env.r5 + 2), 1)] ∧
    (s.hook__log_debug_print env).printed_lines =
      ["debug_PrintScenario: " ++
        env.read_ssb_str env.start_addr_str_table (env.read_short (env.r5 + 4)) ++
        " - " ++ (env.game_variable_read (env.read_short (env.r5 + 2)) 0).1 ++
        " = scenario:" ++
        toString (env.game_variable_read (env.read_short (env.r5 + 2)) 0).2 ++
        ", level:" ++
        toString (env.game_variable_read (env.read_short (env.r5 + 2)) 0).2] ∧
    (∀ f : Nat → Nat → String × Int,
      (s.hook__log_debug_print (env.override_sub_index_1 f)).printed_lines =
        (s.hook__log_debug_print env).printed_lines) := by
  refine ⟨?_, ?_, ?_⟩ <;>
    simp [DebuggerController.hook__log_debug_print,
      DebugPrintHookEnv.override_sub_index_1, hlog, hop]

/-- C6 witness: the 0x6D rule evaluated at a concrete environment whose
game-variable reader returns different values at sub-index 0 and
sub-index 1: the variable id 4 is read at both sub-indices and both
printed fields carry the sub-index-0 value 4. -/
theorem hook__log_debug_print_scenario_duplicates_value_witness :
    ((DebuggerController.init.log_debug_print true).hook__log_debug_print
        debugPrintEnv6D).var_reads = [(4, 0), (4, 1)] ∧
    ((DebuggerController.init.log_debug_print true).hook__log_debug_print
        debugPrintEnv6D).printed_lines =
      ["debug_PrintScenario: scn6 - SCENARIO_MAIN = scenario:4, level:4"] := by
  have h := hook__log_debug_print_scenario_duplicates_value
    (DebuggerController.init.log_debug_print true) debugPrintEnv6D rfl rfl
  exact ⟨h.1.trans (by decide), h.2.1.trans (by decide)⟩
